import Mathlib

/-!
Verification of the AnchorMarks Flow Launcher plugin
(src/tooling/flow-launcher-plugin/main.py).

Python strings are modelled as `List Char` (Python `str` is a sequence of
code points). The plugin's file system, network and in-memory state are made
explicit: the configuration file is a value, the HTTP layer is an oracle
passed to `query`, and the `AnchorMarks` instance attributes
`self.server_url` / `self.api_key` form a `Config` record.
-/

namespace AnchorMarks

/-- A Python `str` as a list of code points. -/
def pyStr (s : String) : List Char := s.data

/-- The characters Python `str.strip()` removes (ASCII whitespace; the
claims under study only involve ASCII queries). -/
def pyWs (c : Char) : Bool :=
  c = ' ' || c = '\t' || c = '\n' || c = '\r' || c = '\x0b' || c = '\x0c'

/-- Python `s.strip()`: remove leading and trailing whitespace. -/
def pyStrip (l : List Char) : List Char :=
  List.rdropWhile pyWs (l.dropWhile pyWs)

/-- Python `s.startswith(p)`. -/
def pyStartswith (p s : List Char) : Bool := p.isPrefixOf s

/-- Python `s.rstrip(c)` for a single character `c`. -/
def pyRstripChar (c : Char) (l : List Char) : List Char :=
  List.rdropWhile (· = c) l

/-- Python `s.split(" ", 1)`: the part before the first space, and, when a
space occurs, the part after it. `(before, some after)` models the
two-element list, `(s, none)` the one-element list. -/
def splitOnce (s : List Char) : List Char × Option (List Char) :=
  if s.contains ' ' then
    (s.takeWhile (· ≠ ' '), some ((s.dropWhile (· ≠ ' ')).drop 1))
  else (s, none)

/-! ### `urllib.parse.urlparse(url).netloc`

Model of the netloc extraction of CPython `urllib.parse.urlsplit`: strip
leading C0-control-or-space characters, remove tab/CR/LF everywhere, split
off a valid scheme, and when the remainder starts with `//` take everything
up to the first of `/`, `?`, `#`. A bracket mismatch in the authority raises
`ValueError` (modelled as `Except.error`); the deeper validation of a host
that has both brackets is not modelled, no claim touches such URLs. -/

/-- Characters allowed in a URL scheme after the first letter. -/
def schemeChar (c : Char) : Bool :=
  c.isAlphanum || c = '+' || c = '-' || c = '.'

/-- Drop a leading `<scheme>:` when the part before the first colon is a
valid scheme (first char an ASCII letter, the rest scheme chars). -/
def stripScheme (l : List Char) : List Char :=
  match l with
  | [] => []
  | c :: rest =>
    if c.toNat < 128 ∧ c.isAlpha ∧ rest.contains ':' ∧
        (rest.takeWhile (· ≠ ':')).all schemeChar then
      (rest.dropWhile (· ≠ ':')).drop 1
    else c :: rest

/-- `_splitnetloc`: the authority runs up to the first `/`, `?` or `#`. -/
def splitnetloc (l : List Char) : List Char :=
  l.takeWhile (fun c => c ≠ '/' ∧ c ≠ '?' ∧ c ≠ '#')

/-- `urlparse(url).netloc`; `Except.error` models the `ValueError` raised on
a bracket mismatch in the authority. -/
def pyNetloc (url : List Char) : Except Unit (List Char) :=
  let u0 := url.dropWhile (fun c => c.val ≤ 0x20)
  let u1 := u0.filter (fun c => c ≠ '\t' ∧ c ≠ '\r' ∧ c ≠ '\n')
  match stripScheme u1 with
  | '/' :: '/' :: rest =>
    let n := splitnetloc rest
    if (n.contains '[' ∧ ¬ n.contains ']') ∨
        (n.contains ']' ∧ ¬ n.contains '[') then .error ()
    else .ok n
  | _ => .ok []

/-- The `domain` computed in `_bookmark_to_result`: `urlparse(url).netloc`,
falling back to the whole URL when the parse raises. -/
def pyDomain (url : List Char) : List Char :=
  match pyNetloc url with
  | .ok n => n
  | .error _ => url

/-! ### Data model -/

/-- The in-memory attributes `self.server_url` and `self.api_key`. -/
structure Config where
  server_url : List Char
  api_key : List Char
deriving DecidableEq

/-- A bookmark record returned by the remote service. Each field is `none`
when the JSON object lacks the key (Python `dict.get` semantics). `id` may
be any JSON scalar in reality; the claims only use its string form. -/
structure Bookmark where
  id : Option (List Char)
  url : Option (List Char)
  title : Option (List Char)
  favicon : Option (List Char)
  click_count : Option Int
deriving DecidableEq

/-- A `JsonRPCAction` dict: a method name and positional string parameters. -/
structure RPCAction where
  method : List Char
  parameters : List (List Char)
deriving DecidableEq

/-- A Flow Launcher result dict. -/
structure FlowResult where
  Title : List Char
  SubTitle : List Char
  IcoPath : List Char
  JsonRPCAction : Option RPCAction
deriving DecidableEq

/-- The content of `config.json` as far as the plugin reads it: the three
optional keys. `port` holds `str(config["port"])`, the string form the code
computes. -/
structure ConfigJson where
  port : Option (List Char)
  server_url : Option (List Char)
  api_key : Option (List Char)
deriving DecidableEq

/-- `config = {}`. -/
def emptyConfigJson : ConfigJson := ⟨none, none, none⟩

/-- The state of `config.json` on disk: `none` = the file does not exist,
`some none` = it exists but reading/parsing it raises, `some (some j)` = it
parses to `j`. -/
def FileState := Option (Option ConfigJson)

/-- The plugin instance: the config file plus the in-memory `Config`. -/
structure PluginState where
  fileState : FileState
  config : Config

/-! ### `load_config` and `save_config` -/

/-- `load_config` (main.py lines 28-51): default port `"3000"`, overridden
by the `port` key; `server_url = f"http://localhost:{port}"`;
`api_key = config.get("api_key", "")`; finally `server_url` is overridden by
the `server_url` key when present. A missing or unreadable file leaves
`config = {}`. -/
def load_config (fs : FileState) : Config :=
  let config : ConfigJson :=
    match fs with
    | some (some j) => j
    | _ => emptyConfigJson
  let port : List Char := config.port.getD (pyStr "3000")
  let server_url0 : List Char := pyStr "http://localhost:" ++ port
  let api_key : List Char := config.api_key.getD []
  let server_url : List Char := config.server_url.getD server_url0
  ⟨server_url, api_key⟩

/-- `save_config` (main.py lines 53-76): read the existing file (errors
there give `config = {}`), set the `server_url` and `api_key` keys, write
the file, then update the in-memory attributes and return `True`. `writeOk`
models whether opening/writing the file raises; on an exception the
function returns `False` before the in-memory assignments run. (A write
that fails midway may leave a partially written file; no claim depends on
the on-disk content of a failed save, so the file state is left as-is.) -/
def save_config (s : PluginState) (writeOk : Bool)
    (server_url api_key : List Char) : PluginState × Bool :=
  let existing : ConfigJson :=
    match s.fileState with
    | some (some j) => j
    | _ => emptyConfigJson
  let newJson : ConfigJson :=
    { existing with server_url := some server_url, api_key := some api_key }
  if writeOk then
    (⟨some (some newJson), ⟨server_url, api_key⟩⟩, true)
  else
    (s, false)

/-- The `configure` method (main.py lines 294-296): just `save_config`. -/
def configure (s : PluginState) (writeOk : Bool)
    (server_url api_key : List Char) : PluginState :=
  (save_config s writeOk server_url api_key).1

/-! ### The HTTP layer -/

/-- The query-string parameters the plugin sends: optional `q` and `limit`. -/
structure ApiParams where
  q : Option (List Char)
  limit : Nat
deriving DecidableEq

/-- An HTTP response: status code, and the parsed JSON body — `none` models
a body on which `response.json()` raises (malformed JSON), `some bms` a body
that parses to a list of bookmark records. -/
structure HttpResponse where
  status : Nat
  body : Option (List Bookmark)

/-- The network oracle: what `requests.get(url, params=params)` does.
`Except.error` models a raised exception (timeout, connection refused, ...). -/
def Net := List Char → ApiParams → Except Unit HttpResponse

/-- The request URL `f"{self.server_url.rstrip('/')}/api{endpoint}"`. -/
def apiUrl (cfg : Config) (endpoint : List Char) : List Char :=
  pyRstripChar '/' cfg.server_url ++ pyStr "/api" ++ endpoint

/-- `api_request` (main.py lines 78-96): `None` without the `requests`
library or with an empty API key; otherwise one GET to
`f"{server_url.rstrip('/')}/api{endpoint}"`; any exception or a non-200
status yields `None`, a 200 status yields the parsed JSON. -/
def api_request (requestsAvailable : Bool) (cfg : Config) (net : Net)
    (endpoint : List Char) (params : ApiParams) : Option (List Bookmark) :=
  if requestsAvailable = false then none
  else if cfg.api_key = [] then none
  else
    match net (apiUrl cfg endpoint) params with
    | .error _ => none
    | .ok r => if r.status = 200 then r.body else none

/-! ### `_bookmark_to_result` -/

/-- `_bookmark_to_result` (main.py lines 222-250):
`title = bookmark.get("title", bookmark.get("url", "Untitled"))`,
`url = bookmark.get("url", "")`, `click_count = bookmark.get("click_count", 0)`,
`domain = urlparse(url).netloc` (whole URL on a parse error), and the
subtitle gains a click suffix exactly when `click_count > 0`. -/
def bookmark_to_result (bm : Bookmark) : FlowResult :=
  let title := bm.title.getD (bm.url.getD (pyStr "Untitled"))
  let url := bm.url.getD []
  let click_count := bm.click_count.getD 0
  let domain := pyDomain url
  let subtitle :=
    if click_count > 0 then
      domain ++ pyStr " • " ++ (toString click_count).data ++ pyStr " clicks"
    else domain
  ⟨title, subtitle, pyStr "icon.png",
    some ⟨pyStr "open_bookmark", [bm.id.getD [], url]⟩⟩

/-! ### The result entries `query` builds (the dict literals of main.py) -/

/-- The ASCII single-quote character, kept out of the string literals. -/
def sq : List Char := [Char.ofNat 39]

/-- main.py lines 104-112. -/
def missingRequestsEntry : FlowResult :=
  ⟨pyStr "Missing " ++ sq ++ pyStr "requests" ++ sq ++ pyStr " library",
    pyStr "Run: pip install requests", pyStr "icon.png",
    some ⟨pyStr "open_url", [pyStr "https://pypi.org/project/requests/"]⟩⟩

/-- main.py lines 118-126. -/
def configConfirmEntry (u k : List Char) : FlowResult :=
  ⟨pyStr "Set API Key and connect to " ++ u,
    pyStr "Press Enter to save configuration", pyStr "icon.png",
    some ⟨pyStr "configure", [u, k]⟩⟩

/-- main.py lines 127-131. -/
def configUsageEntry : FlowResult :=
  ⟨pyStr "Configure AnchorMarks",
    pyStr "Usage: lv config <server_url> <api_key>", pyStr "icon.png", none⟩

/-- main.py lines 135-139. -/
def notConfiguredEntry : FlowResult :=
  ⟨pyStr "AnchorMarks not configured",
    pyStr "Type: lv config http://localhost:3000 your_api_key",
    pyStr "icon.png", none⟩

/-- main.py lines 146-150 and 204-208. -/
def cannotConnectEntry (cfg : Config) : FlowResult :=
  ⟨pyStr "Cannot connect to AnchorMarks",
    pyStr "Check if server is running at " ++ cfg.server_url,
    pyStr "icon.png", none⟩

/-- main.py lines 152-161. -/
def noBookmarksTopEntry (cfg : Config) : FlowResult :=
  ⟨pyStr "No bookmarks found", pyStr "Add some bookmarks in AnchorMarks",
    pyStr "icon.png", some ⟨pyStr "open_url", [cfg.server_url]⟩⟩

/-- main.py lines 163-167. -/
def topHeaderEntry : FlowResult :=
  ⟨pyStr "Your Top Bookmarks",
    pyStr "Type to search or select a bookmark below", pyStr "icon.png", none⟩

/-- main.py lines 178-186. -/
def addEntry (url : List Char) : FlowResult :=
  ⟨pyStr "Add bookmark: " ++ url,
    pyStr "Press Enter to add this URL to AnchorMarks", pyStr "icon.png",
    some ⟨pyStr "add_bookmark", [url]⟩⟩

/-- main.py lines 190-198. -/
def openEntry (cfg : Config) : FlowResult :=
  ⟨pyStr "Open AnchorMarks", pyStr "Open " ++ cfg.server_url ++ pyStr " in browser",
    pyStr "icon.png", some ⟨pyStr "open_url", [cfg.server_url]⟩⟩

/-- main.py lines 211-215. -/
def noResultsEntry (q : List Char) : FlowResult :=
  ⟨pyStr "No bookmarks found for " ++ sq ++ q ++ sq,
    pyStr "Try a different search term", pyStr "icon.png", none⟩

/-! ### `query` -/

/-- `query` (main.py lines 98-220), with all branches in source order:
1. no `requests` library → one install-hint entry;
2. `query.startswith("config ")` → split `query[7:].strip()` once on the
   first space; two parts → one confirmation entry, else one usage entry;
3. `if not self.api_key` → one "not configured" entry;
4. `query.strip() == ""` → GET `/quick-search` with `limit=10`; `None` →
   "cannot connect", empty list → "no bookmarks", else a header entry
   followed by one entry per bookmark;
5. `query.startswith("add ")` with `query[4:].strip()` non-empty → one
   add entry (an empty remainder falls through);
6. `query.strip() == "open"` → one open entry;
7. otherwise → GET `/quick-search` with `q=query, limit=15`; `None` →
   "cannot connect", empty list → "no results", else one entry per
   bookmark. -/
def query (requestsAvailable : Bool) (cfg : Config) (net : Net)
    (q : List Char) : List FlowResult :=
  if requestsAvailable = false then [missingRequestsEntry]
  else if pyStartswith (pyStr "config ") q = true then
    let parts := splitOnce (pyStrip (q.drop 7))
    match parts.2 with
    | some k => [configConfirmEntry parts.1 k]
    | none => [configUsageEntry]
  else if cfg.api_key = [] then [notConfiguredEntry]
  else if pyStrip q = [] then
    match api_request requestsAvailable cfg net (pyStr "/quick-search") ⟨none, 10⟩ with
    | none => [cannotConnectEntry cfg]
    | some [] => [noBookmarksTopEntry cfg]
    | some (b :: bs) => topHeaderEntry :: (b :: bs).map bookmark_to_result
  else if pyStartswith (pyStr "add ") q = true ∧ pyStrip (q.drop 4) ≠ [] then
    [addEntry (pyStrip (q.drop 4))]
  else if pyStrip q = pyStr "open" then [openEntry cfg]
  else
    match api_request requestsAvailable cfg net (pyStr "/quick-search") ⟨some q, 15⟩ with
    | none => [cannotConnectEntry cfg]
    | some [] => [noResultsEntry q]
    | some (b :: bs) => (b :: bs).map bookmark_to_result

/-- The POST the `add_bookmark` method (main.py lines 272-292) issues:
target `f"{self.server_url}/api/bookmarks"` and JSON body `{"url": url}`
(here: the request URL paired with the submitted bookmark URL). -/
structure PostRequest where
  url : List Char
  body_url : List Char
deriving DecidableEq

/-- `add_bookmark` (main.py lines 272-292), as the request it sends. -/
def add_bookmark (cfg : Config) (url : List Char) : PostRequest :=
  ⟨cfg.server_url ++ pyStr "/api/bookmarks", url⟩

/-! ### Concrete fixtures used by the witnesses and counterexamples -/

/-- A network that always raises (connection refused / timeout). -/
def netErr : Net := fun _ _ => .error ()

/-- A bookmark with a title and five clicks. -/
def bmEx : Bookmark :=
  ⟨some (pyStr "1"), some (pyStr "http://example.com/x"),
    some (pyStr "Example"), none, some 5⟩

/-- A bookmark with no title and zero clicks. -/
def bmOrg : Bookmark :=
  ⟨some (pyStr "2"), some (pyStr "https://foo.org"), none, none, some 0⟩

/-- A network that always answers 200 with two bookmarks. -/
def netTwoBms : Net := fun _ _ => .ok ⟨200, some [bmEx, bmOrg]⟩

/-- A configuration with an empty API key. -/
def cfgNoKey : Config := ⟨pyStr "http://localhost:3000", []⟩

/-- A configuration with a non-empty API key. -/
def cfgWithKey : Config := ⟨pyStr "http://localhost:3000", pyStr "secret"⟩

/-- A plugin instance with no config file on disk and the default config. -/
def initialState : PluginState := ⟨none, cfgNoKey⟩

end AnchorMarks

namespace AnchorMarks

/-! ### Helper lemmas about `pyStrip` and `pyStartswith` -/

/-- Stripping a string whose first character is not whitespace keeps that
first character. -/
theorem pyStrip_head (c : Char) (t : List Char) (hc : pyWs c = false) :
    ∃ t2, pyStrip (c :: t) = c :: t2 := by
  have h1 : (c :: t).dropWhile pyWs = c :: t := by
    simp [List.dropWhile_cons, hc]
  have hpre : List.rdropWhile pyWs (c :: t) <+: c :: t := List.rdropWhile_prefix _ _
  have hne : List.rdropWhile pyWs (c :: t) ≠ [] := by
    rw [Ne, List.rdropWhile_eq_nil_iff]
    intro h
    have h2 := h c (by simp)
    rw [hc] at h2
    exact Bool.noConfusion h2
  rw [pyStrip, h1]
  obtain ⟨u, hu⟩ := hpre
  cases hrd : List.rdropWhile pyWs (c :: t) with
  | nil => exact absurd hrd hne
  | cons d t2 =>
    rw [hrd, List.cons_append] at hu
    injection hu with h3 _
    exact ⟨t2, by rw [h3]⟩

/-- A string starting with `c :: p` starts with `c`. -/
theorem pyStartswith_head (c : Char) (p q : List Char)
    (h : pyStartswith (c :: p) q = true) : ∃ t, q = c :: t := by
  cases q with
  | nil => simp [pyStartswith, List.isPrefixOf] at h
  | cons b bs =>
    simp only [pyStartswith, List.isPrefixOf, Bool.and_eq_true, beq_iff_eq] at h
    exact ⟨bs, by rw [h.1]⟩

/-- A string starting with a non-whitespace character `c` still starts with
`c` after stripping. -/
theorem strip_head_of_startswith (c : Char) (p q : List Char) (hws : pyWs c = false)
    (h : pyStartswith (c :: p) q = true) : ∃ t2, pyStrip q = c :: t2 := by
  obtain ⟨t, ht⟩ := pyStartswith_head c p q h
  subst ht
  exact pyStrip_head c t hws

/-- If the stripped string starts with `d` then the raw string cannot start
with a different non-whitespace character `c`. -/
theorem not_startswith_of_strip_head (c d : Char) (p q t : List Char)
    (hws : pyWs c = false) (hne : c ≠ d)
    (hq : pyStrip q = d :: t) : pyStartswith (c :: p) q = false := by
  by_contra hh
  rw [Bool.not_eq_false] at hh
  obtain ⟨t2, h2⟩ := strip_head_of_startswith c p q hws hh
  rw [hq] at h2
  injection h2 with h3 _
  exact hne h3.symm

/-! ### Helper lemmas about `api_request` -/

/-- A reachable 200 answer with a parseable list body comes back as is. -/
theorem api_request_ok (cfg : Config) (net : Net) (e : List Char) (p : ApiParams)
    (hk : cfg.api_key ≠ []) (bms : List Bookmark)
    (hn : net (apiUrl cfg e) p = .ok ⟨200, some bms⟩) :
    api_request true cfg net e p = some bms := by
  simp [api_request, hk, hn]

/-- A raised exception, a non-200 status or a malformed body all yield
`None`. -/
theorem api_request_failure (cfg : Config) (net : Net) (e : List Char) (p : ApiParams)
    (hfail : ∀ r, net (apiUrl cfg e) p = .ok r → r.status ≠ 200 ∨ r.body = none) :
    api_request true cfg net e p = none := by
  by_cases hk : cfg.api_key = []
  · simp [api_request, hk]
  · cases hnet : net (apiUrl cfg e) p with
    | error u => simp [api_request, hk, hnet]
    | ok r =>
      rcases hfail r hnet with h2 | h2 <;> simp [api_request, hk, hnet, h2]

/-! ### The claims -/

/-- Claim C1: with the `requests` library available and an empty configured
`api_key`, every query returns exactly one entry, the same entry whatever
the network would answer (no network call is consulted); and for every
query that is not a `config ` command that single entry is the
"not configured" informational entry. (For `config ` commands the single
entry is the confirmation or usage entry, produced before the key check.) -/
theorem claim1_no_key_single_entry (cfg : Config) (net net2 : Net) (q : List Char)
    (h : cfg.api_key = []) :
    (query true cfg net q).length = 1 ∧
    query true cfg net q = query true cfg net2 q ∧
    (pyStartswith (pyStr "config ") q = false →
      query true cfg net q = [notConfiguredEntry]) := by
  by_cases hc : pyStartswith (pyStr "config ") q = true
  · cases hk : (splitOnce (pyStrip (q.drop 7))).2 <;> simp [query, hc, hk]
  · rw [Bool.not_eq_true] at hc
    simp [query, hc, h]

/-- Claim C1, witnessed at the query `"open"` with an empty key. -/
theorem claim1_no_key_single_entry_witness :
    (query true cfgNoKey netErr (pyStr "open")).length = 1 ∧
    query true cfgNoKey netErr (pyStr "open")
      = query true cfgNoKey netTwoBms (pyStr "open") ∧
    (pyStartswith (pyStr "config ") (pyStr "open") = false →
      query true cfgNoKey netErr (pyStr "open") = [notConfiguredEntry]) :=
  claim1_no_key_single_entry cfgNoKey netErr netTwoBms (pyStr "open") rfl

/-- Claim C2: an empty query with a non-empty key, when the service answers
200 with a JSON list of `N ≥ 1` bookmarks, yields the header entry followed
by one entry per bookmark — `N + 1` entries in all — and each bookmark
entry's action is `open_bookmark` on that bookmark's id and URL. -/
theorem claim2_empty_query_header_plus_bookmarks (cfg : Config) (net : Net)
    (q : List Char) (bms : List Bookmark)
    (hk : cfg.api_key ≠ [])
    (hq : pyStrip q = [])
    (hn : net (apiUrl cfg (pyStr "/quick-search")) ⟨none, 10⟩
        = .ok ⟨200, some bms⟩)
    (hbm : bms ≠ []) :
    query true cfg net q = topHeaderEntry :: bms.map bookmark_to_result ∧
    (query true cfg net q).length = bms.length + 1 ∧
    ∀ bm ∈ bms, (bookmark_to_result bm).JsonRPCAction
      = some ⟨pyStr "open_bookmark", [bm.id.getD [], bm.url.getD []]⟩ := by
  have hc : pyStartswith (pyStr "config ") q = false := by
    by_contra hh
    rw [Bool.not_eq_false] at hh
    obtain ⟨t2, h2⟩ := strip_head_of_startswith 'c' (pyStr "onfig ") q (by decide) hh
    rw [hq] at h2
    exact List.noConfusion h2
  have hmain : query true cfg net q = topHeaderEntry :: bms.map bookmark_to_result := by
    rcases bms with _ | ⟨b, bs⟩
    · exact absurd rfl hbm
    · have har : api_request true cfg net (pyStr "/quick-search") ⟨none, 10⟩
          = some (b :: bs) :=
        api_request_ok cfg net (pyStr "/quick-search") ⟨none, 10⟩ hk (b :: bs) hn
      simp [query, hc, hk, hq, har]
  refine ⟨hmain, by rw [hmain]; simp, fun bm _ => by simp [bookmark_to_result]⟩

/-- Claim C2, witnessed at the empty query against a service with two
bookmarks. -/
theorem claim2_empty_query_header_plus_bookmarks_witness :
    query true cfgWithKey netTwoBms [] =
      topHeaderEntry :: [bmEx, bmOrg].map bookmark_to_result ∧
    (query true cfgWithKey netTwoBms []).length = [bmEx, bmOrg].length + 1 ∧
    ∀ bm ∈ [bmEx, bmOrg], (bookmark_to_result bm).JsonRPCAction
      = some ⟨pyStr "open_bookmark", [bm.id.getD [], bm.url.getD []]⟩ :=
  claim2_empty_query_header_plus_bookmarks cfgWithKey netTwoBms [] [bmEx, bmOrg]
    (by decide) rfl rfl (by decide)

/-- Claim C3: a search query (one routed to no command branch) with a
non-empty key returns exactly one "cannot connect" entry whenever the
network call raises, answers a non-200 status, or yields a body whose JSON
parse raises. The embedding is a total function, so no exception reaches
the caller. -/
theorem claim3_search_failure_single_cannot_connect (cfg : Config) (net : Net)
    (q : List Char)
    (hk : cfg.api_key ≠ [])
    (hc : pyStartswith (pyStr "config ") q = false)
    (hq : pyStrip q ≠ [])
    (ha : ¬(pyStartswith (pyStr "add ") q = true ∧ pyStrip (q.drop 4) ≠ []))
    (ho : pyStrip q ≠ pyStr "open")
    (hfail : ∀ r, net (apiUrl cfg (pyStr "/quick-search")) ⟨some q, 15⟩ = .ok r →
        r.status ≠ 200 ∨ r.body = none) :
    query true cfg net q = [cannotConnectEntry cfg] := by
  have har := api_request_failure cfg net (pyStr "/quick-search") ⟨some q, 15⟩ hfail
  simp [query, hc, hk, hq, ha, ho, har]

/-- Claim C3, witnessed at the query `"xyz"` against a network that always
raises. -/
theorem claim3_search_failure_single_cannot_connect_witness :
    query true cfgWithKey netErr (pyStr "xyz") = [cannotConnectEntry cfgWithKey] :=
  claim3_search_failure_single_cannot_connect cfgWithKey netErr (pyStr "xyz")
    (by decide) (by decide) (by decide) (by decide) (by decide)
    (fun r h => Except.noConfusion h)

/-- Claim C4, counterexample: for the query `"config a "` the remaining
text `"a "` contains a space, so the claim ("split the remaining text once
on the first space; two tokens give a confirmation entry") predicts a
confirmation entry persisting `("a", "")`. The code strips the remaining
text before splitting, finds one token, and returns the action-free usage
entry instead. -/
theorem claim4_counterexample :
    query true cfgNoKey netErr (pyStr "config a ") = [configUsageEntry] ∧
    configUsageEntry.JsonRPCAction = none := ⟨by decide, rfl⟩

/-- Claim C4 as amended: for every query beginning with `"config "`, the
remaining text is first stripped of surrounding whitespace and then split
once on the first space; two tokens give exactly one confirmation entry
whose `configure` action persists them as server URL and API key, one token
gives exactly one usage entry. -/
theorem claim4_amended_config_split (cfg : Config) (net : Net) (q : List Char)
    (hc : pyStartswith (pyStr "config ") q = true) :
    (∀ u k, splitOnce (pyStrip (q.drop 7)) = (u, some k) →
        query true cfg net q = [configConfirmEntry u k] ∧
        (configConfirmEntry u k).JsonRPCAction = some ⟨pyStr "configure", [u, k]⟩ ∧
        ∀ s, (configure s true u k).config = ⟨u, k⟩) ∧
    (∀ u, splitOnce (pyStrip (q.drop 7)) = (u, none) →
        query true cfg net q = [configUsageEntry]) := by
  constructor
  · intro u k hsp
    have h2 : (splitOnce (pyStrip (q.drop 7))).2 = some k := by rw [hsp]
    have h1 : (splitOnce (pyStrip (q.drop 7))).1 = u := by rw [hsp]
    refine ⟨by simp [query, hc, h2, h1], rfl, ?_⟩
    intro s
    simp [configure, save_config]
  · intro u hsp
    have h2 : (splitOnce (pyStrip (q.drop 7))).2 = none := by rw [hsp]
    simp [query, hc, h2]

/-- Claim C4 as amended, witnessed at a two-token and a one-token command. -/
theorem claim4_amended_config_split_witness :
    query true cfgNoKey netErr (pyStr "config http://h key1")
      = [configConfirmEntry (pyStr "http://h") (pyStr "key1")] ∧
    (configure initialState true (pyStr "http://h") (pyStr "key1")).config
      = ⟨pyStr "http://h", pyStr "key1"⟩ ∧
    query true cfgNoKey netErr (pyStr "config onlyurl") = [configUsageEntry] := by
  refine ⟨?_, ?_, ?_⟩
  · exact ((claim4_amended_config_split cfgNoKey netErr (pyStr "config http://h key1")
      (by decide)).1 (pyStr "http://h") (pyStr "key1") (by decide)).1
  · exact ((claim4_amended_config_split cfgNoKey netErr (pyStr "config http://h key1")
      (by decide)).1 (pyStr "http://h") (pyStr "key1") (by decide)).2.2 initialState
  · exact (claim4_amended_config_split cfgNoKey netErr (pyStr "config onlyurl")
      (by decide)).2 (pyStr "onlyurl") (by decide)

/-- Claim C5: a save that returns `True` leaves a config file from which
`load_config` reads back exactly the saved `server_url` and `api_key`. -/
theorem claim5_save_load_round_trip (s : PluginState) (wOk : Bool) (u k : List Char)
    (h : (save_config s wOk u k).2 = true) :
    (load_config (save_config s wOk u k).1.fileState).server_url = u ∧
    (load_config (save_config s wOk u k).1.fileState).api_key = k := by
  cases wOk with
  | false => simp [save_config] at h
  | true => simp [save_config, load_config]

/-- Claim C5, witnessed at a successful save over a missing file. -/
theorem claim5_save_load_round_trip_witness :
    (load_config (save_config initialState true (pyStr "http://h") (pyStr "K")).1.fileState).server_url
      = pyStr "http://h" ∧
    (load_config (save_config initialState true (pyStr "http://h") (pyStr "K")).1.fileState).api_key
      = pyStr "K" :=
  claim5_save_load_round_trip initialState true (pyStr "http://h") (pyStr "K") rfl

/-- Claim C6: a bookmark entry's title is the bookmark's title, else its
URL, else `"Untitled"`; its subtitle is the URL's host component
(`urlparse(url).netloc`, the whole URL when the parse raises), suffixed by
the click count and the word `clicks` exactly when the count is positive,
and carrying no click suffix when the count is zero. -/
theorem claim6_bookmark_display_fields (bm : Bookmark) :
    (bookmark_to_result bm).Title = bm.title.getD (bm.url.getD (pyStr "Untitled")) ∧
    (bm.click_count.getD 0 > 0 →
        (bookmark_to_result bm).SubTitle =
          pyDomain (bm.url.getD []) ++ pyStr " • "
            ++ (toString (bm.click_count.getD 0)).data ++ pyStr " clicks") ∧
    (bm.click_count.getD 0 = 0 →
        (bookmark_to_result bm).SubTitle = pyDomain (bm.url.getD [])) := by
  refine ⟨rfl, fun h => ?_, fun h => ?_⟩
  · simp [bookmark_to_result, h]
  · simp [bookmark_to_result, h]

/-- Claim C6, witnessed at a five-click and a zero-click bookmark. -/
theorem claim6_bookmark_display_fields_witness :
    (bookmark_to_result bmEx).Title = bmEx.title.getD (bmEx.url.getD (pyStr "Untitled")) ∧
    (bookmark_to_result bmEx).SubTitle =
      pyDomain (bmEx.url.getD []) ++ pyStr " • "
        ++ (toString (bmEx.click_count.getD 0)).data ++ pyStr " clicks" ∧
    (bookmark_to_result bmOrg).SubTitle = pyDomain (bmOrg.url.getD []) :=
  ⟨(claim6_bookmark_display_fields bmEx).1,
    (claim6_bookmark_display_fields bmEx).2.1 (by decide),
    (claim6_bookmark_display_fields bmOrg).2.2 (by decide)⟩

/-- Claim C7, counterexample: the code checks the API key before the
`"open"` command, so with an empty key the query `"open"` yields the
action-free "not configured" entry and not the open entry the claim
demands for every `"open"` query. -/
theorem claim7_counterexample :
    query true cfgNoKey netErr (pyStr "open") = [notConfiguredEntry] ∧
    notConfiguredEntry.JsonRPCAction = none ∧
    query true cfgNoKey netErr (pyStr "open") ≠ [openEntry cfgNoKey] :=
  ⟨by decide, rfl, by decide⟩

/-- Claim C7 as amended: for every query equal to `"open"` after trimming,
issued with a non-empty `api_key` (and the `requests` library available),
the query returns exactly one entry whose `open_url` action opens the
configured server URL. -/
theorem claim7_amended_open_entry (cfg : Config) (net : Net) (q : List Char)
    (hk : cfg.api_key ≠ []) (hq : pyStrip q = pyStr "open") :
    query true cfg net q = [openEntry cfg] ∧
    (openEntry cfg).JsonRPCAction = some ⟨pyStr "open_url", [cfg.server_url]⟩ := by
  have hc : pyStartswith (pyStr "config ") q = false :=
    not_startswith_of_strip_head 'c' 'o' (pyStr "onfig ") q (pyStr "pen")
      (by decide) (by decide) (by rw [hq]; exact rfl)
  have hadd : pyStartswith (pyStr "add ") q = false :=
    not_startswith_of_strip_head 'a' 'o' (pyStr "dd ") q (pyStr "pen")
      (by decide) (by decide) (by rw [hq]; exact rfl)
  have hne : pyStr "open" ≠ ([] : List Char) := by decide
  exact ⟨by simp [query, hc, hk, hne, hadd, hq], rfl⟩

/-- Claim C7 as amended, witnessed at the query `" open  "` with a key. -/
theorem claim7_amended_open_entry_witness :
    query true cfgWithKey netErr (pyStr " open  ") = [openEntry cfgWithKey] ∧
    (openEntry cfgWithKey).JsonRPCAction
      = some ⟨pyStr "open_url", [cfgWithKey.server_url]⟩ :=
  claim7_amended_open_entry cfgWithKey netErr (pyStr " open  ")
    (by decide) (by decide)

/-- Claim C8, counterexample: the query `"add "` begins with `"add "`, but
its remainder strips to the empty string, so the code falls through to the
search branch: against a service answering two bookmarks the query returns
two entries (after a network call), not the single add entry the claim
demands. -/
theorem claim8_counterexample :
    pyStartswith (pyStr "add ") (pyStr "add ") = true ∧
    cfgWithKey.api_key ≠ [] ∧
    (query true cfgWithKey netTwoBms (pyStr "add ")).length = 2 :=
  ⟨rfl, by decide, by decide⟩

/-- Claim C8 as amended: for every query beginning with `"add "` whose
remainder is non-empty after stripping, issued with a non-empty `api_key`,
the query returns exactly one entry whose `add_bookmark` action submits the
stripped remainder as the new bookmark URL; the result does not depend on
the network, and the `add_bookmark` method posts exactly that URL. -/
theorem claim8_amended_add_entry (cfg : Config) (net net2 : Net) (q : List Char)
    (hk : cfg.api_key ≠ [])
    (hadd : pyStartswith (pyStr "add ") q = true)
    (hrest : pyStrip (q.drop 4) ≠ []) :
    query true cfg net q = [addEntry (pyStrip (q.drop 4))] ∧
    query true cfg net q = query true cfg net2 q ∧
    (addEntry (pyStrip (q.drop 4))).JsonRPCAction
      = some ⟨pyStr "add_bookmark", [pyStrip (q.drop 4)]⟩ ∧
    ∀ u, (add_bookmark cfg u).body_url = u := by
  obtain ⟨t, ht⟩ := pyStartswith_head 'a' (pyStr "dd ") q hadd
  have hc : pyStartswith (pyStr "config ") q = false := by
    by_contra hh
    rw [Bool.not_eq_false] at hh
    obtain ⟨t2, h2⟩ := pyStartswith_head 'c' (pyStr "onfig ") q hh
    rw [ht] at h2
    injection h2 with h3 _
    exact absurd h3 (by decide)
  have hne : pyStrip q ≠ [] := by
    obtain ⟨t2, h2⟩ := pyStrip_head 'a' t (by decide)
    rw [ht, h2]
    exact (by simp)
  have hcond : pyStartswith (pyStr "add ") q = true ∧ pyStrip (q.drop 4) ≠ [] :=
    ⟨hadd, hrest⟩
  refine ⟨?_, ?_, rfl, fun u => rfl⟩
  · simp [query, hc, hk, hne, hcond]
  · simp [query, hc, hk, hne, hcond]

/-- Claim C8 as amended, witnessed at `"add  http://x "`. -/
theorem claim8_amended_add_entry_witness :
    query true cfgWithKey netErr (pyStr "add  http://x ")
      = [addEntry (pyStrip ((pyStr "add  http://x ").drop 4))] ∧
    query true cfgWithKey netErr (pyStr "add  http://x ")
      = query true cfgWithKey netTwoBms (pyStr "add  http://x ") ∧
    (addEntry (pyStrip ((pyStr "add  http://x ").drop 4))).JsonRPCAction
      = some ⟨pyStr "add_bookmark", [pyStrip ((pyStr "add  http://x ").drop 4)]⟩ ∧
    ∀ u, (add_bookmark cfgWithKey u).body_url = u :=
  claim8_amended_add_entry cfgWithKey netErr netTwoBms (pyStr "add  http://x ")
    (by decide) (by decide) (by decide)

/-- Claim C9: `load_config` uses the file's `server_url` whenever the key
is present, whatever the `port` key holds; with neither `server_url` nor
`port` present, `server_url` defaults to `"http://localhost:3000"`, and
with `api_key` absent, `api_key` defaults to the empty string. -/
theorem claim9_load_config_precedence_defaults (j : ConfigJson) :
    (∀ u, j.server_url = some u → (load_config (some (some j))).server_url = u) ∧
    (j.server_url = none → j.port = none →
        (load_config (some (some j))).server_url = pyStr "http://localhost:3000") ∧
    (j.api_key = none → (load_config (some (some j))).api_key = []) := by
  refine ⟨fun u hu => ?_, fun h1 h2 => ?_, fun h => ?_⟩
  · simp [load_config, hu]
  · simp [load_config, h1, h2, pyStr]
  · simp [load_config, h]

/-- Claim C9, witnessed at a file with both `port` and `server_url`, and at
an empty file. -/
theorem claim9_load_config_precedence_defaults_witness :
    (load_config (some (some ⟨some (pyStr "8080"), some (pyStr "http://h"),
        some (pyStr "K")⟩))).server_url = pyStr "http://h" ∧
    (load_config (some (some emptyConfigJson))).server_url
      = pyStr "http://localhost:3000" ∧
    (load_config (some (some emptyConfigJson))).api_key = [] :=
  ⟨(claim9_load_config_precedence_defaults
      ⟨some (pyStr "8080"), some (pyStr "http://h"), some (pyStr "K")⟩).1
      (pyStr "http://h") rfl,
    (claim9_load_config_precedence_defaults emptyConfigJson).2.1 rfl rfl,
    (claim9_load_config_precedence_defaults emptyConfigJson).2.2 rfl⟩

/-- Claim C10: a failing `save_config` (returning `False`) leaves the
in-memory `server_url` and `api_key` untouched — the assignments come after
the file write, so an exception skips them. -/
theorem claim10_failed_save_preserves_memory (s : PluginState) (wOk : Bool)
    (u k : List Char)
    (h : (save_config s wOk u k).2 = false) :
    (save_config s wOk u k).1.config = s.config := by
  cases wOk with
  | false => rfl
  | true => simp [save_config] at h

/-- Claim C10, witnessed at a save whose file write raises. -/
theorem claim10_failed_save_preserves_memory_witness :
    (save_config initialState false (pyStr "http://h") (pyStr "K")).1.config
      = initialState.config :=
  claim10_failed_save_preserves_memory initialState false (pyStr "http://h")
    (pyStr "K") rfl

end AnchorMarks
